import Mathlib

/-!
Verification development for the crawl-control subsystem of
`src/scrape_script.py` (hotel crawler).  The Python source is shallowly
embedded: pure fragments become Lean functions, stateful methods become
explicit state-passing functions, and the external effects (random agent
choice, HTTP responses, WebDriver creation, page rendering, file saving,
wall-clock time) become oracle inputs that the theorems quantify over.
-/

namespace Spider

/-! ## URL parsing (the fragments of urllib.parse.urlparse the script uses)

The script uses `urlparse(url).netloc` (rate-limiter key) and the string
interpolation of scheme and netloc (robots cache key).  `urlparse`
lower-cases the scheme and keeps the netloc verbatim; the netloc is the
segment between the first "://" and the following '/', '?' or '#'. -/

/-- Split a character list at the first "://", returning the characters
before it and after it. -/
def urlSchemeSplit : List Char → Option (List Char × List Char)
  | [] => none
  | ':' :: '/' :: '/' :: rest => some ([], rest)
  | c :: rest => (urlSchemeSplit rest).map (fun p => (c :: p.1, p.2))

/-- `urlparse(url).netloc`: the host segment of a url. -/
def urlNetloc (url : String) : String :=
  match urlSchemeSplit url.toList with
  | some (_, rest) =>
      String.mk (rest.takeWhile (fun c => !(c == '/' || c == '?' || c == '#')))
  | none => ""

/-- The robots cache key built in `RobotsChecker.can_fetch`:
scheme (lower-cased by urlparse) ++ "://" ++ netloc. -/
def urlDomain (url : String) : String :=
  match urlSchemeSplit url.toList with
  | some (scheme, rest) =>
      String.mk (scheme.map Char.toLower) ++ "://" ++
        String.mk (rest.takeWhile (fun c => !(c == '/' || c == '?' || c == '#')))
  | none => "://"

/-! ## Configuration (`ScraperConfig`, a pydantic BaseModel) -/

/-- `ScraperConfig` fields, with the same types pydantic enforces
(plain `int`, `float`, `List[str]`, `str`, `bool`, pair of floats). -/
structure ScraperConfig where
  max_retries : Int
  retry_delay : ℚ
  concurrent_requests : Int
  request_timeout : Int
  max_pages_per_hotel : Int
  user_agents : List String
  output_directory : String
  respect_robots_txt : Bool
  rate_limit_delay : ℚ × ℚ

/-- Construction of a `ScraperConfig` as pydantic validates it.  The model
declares only typed fields with defaults (`max_retries = 3`,
`retry_delay = 1.0`, `concurrent_requests = 5`, `request_timeout = 30`,
`max_pages_per_hotel = 100`, `respect_robots_txt = True`,
`rate_limit_delay = (2.0, 5.0)`) and no validators, so validation checks
only that the two fields without defaults (`user_agents`,
`output_directory`) are present and that every field is well-typed (here
enforced by the Lean types); no value-level check exists. -/
def ScraperConfig.construct (max_retries : Option Int) (retry_delay : Option ℚ)
    (concurrent_requests : Option Int) (request_timeout : Option Int)
    (max_pages_per_hotel : Option Int) (user_agents : Option (List String))
    (output_directory : Option String) (respect_robots_txt : Option Bool)
    (rate_limit_delay : Option (ℚ × ℚ)) : Except String ScraperConfig :=
  match user_agents, output_directory with
  | some ua, some od =>
      Except.ok
        { max_retries := max_retries.getD 3
          retry_delay := retry_delay.getD 1
          concurrent_requests := concurrent_requests.getD 5
          request_timeout := request_timeout.getD 30
          max_pages_per_hotel := max_pages_per_hotel.getD 100
          user_agents := ua
          output_directory := od
          respect_robots_txt := respect_robots_txt.getD true
          rate_limit_delay := rate_limit_delay.getD (2, 5) }
  | _, _ => Except.error "validation error: field required"

/-- `random.choice(l)`: returns an element of `l` (here the element at an
oracle-chosen index), and raises `IndexError` (modelled as `none`) when the
list is empty. -/
def randomChoice (l : List String) (i : Nat) : Option String :=
  if h : l.length = 0 then none
  else some (l.get ⟨i % l.length, Nat.mod_lt _ (Nat.pos_of_ne_zero h)⟩)

/-! ## RateLimiter -/

/-- `RateLimiter`: per-domain timestamp of the last dispatched request. -/
structure RateLimiter where
  min_delay : ℚ
  max_delay : ℚ
  last_request_time : String → Option ℚ

/-- `RateLimiter.wait`, embedded with explicit time.  `now` is the value of
`time.time()` on entry and `delay` the sample `random.uniform(min_delay,
max_delay)`.  If the domain has a recorded timestamp and less than `delay`
has elapsed since it, the coroutine sleeps for the remainder; the returned
rational is the moment the wait completes (the dispatch moment), and the
timestamp written for the domain is exactly that moment — the write happens
after the sleep, when the wait completes, not when the request finishes. -/
def RateLimiter.wait (rl : RateLimiter) (domain : String) (now delay : ℚ) :
    ℚ × RateLimiter :=
  let finish : ℚ :=
    match rl.last_request_time domain with
    | some last => if now - last < delay then now + (delay - (now - last)) else now
    | none => now
  (finish,
    { rl with
        last_request_time := fun d =>
          if d = domain then some finish else rl.last_request_time d })

/-! ## RobotsChecker -/

/-- The slice of `urllib.robotparser.RobotFileParser` state the script can
produce: either `parse` has run on some fetched content (recorded as a rule
function resulting from that parse), or the object is fresh.  A fresh
parser has `disallow_all = allow_all = False` and `last_checked = 0`, and
`can_fetch` then returns `False` for every url. -/
structure RobotFileParser where
  last_checked : Bool
  rules : String → String → Bool

/-- `RobotFileParser.can_fetch agent url` for the parser states the script
creates: `False` until the file has been parsed, otherwise the parsed rule
evaluation. -/
def RobotFileParser.canFetch (p : RobotFileParser) (agent url : String) : Bool :=
  if p.last_checked then p.rules agent url else false

/-- `RobotsChecker._parsers`: the per-domain parser cache. -/
def RobotsState := String → Option RobotFileParser

/-- Outcome of the `session.get(domain + "/robots.txt")` call: an HTTP
response with a status and body lines, or a raised exception (network
error, timeout). -/
inductive RobotsFetchResult where
  | ok (status : Nat) (content : List String)
  | exn
deriving DecidableEq

/-- `RobotsChecker.can_fetch`, embedded.  `parseRules` is the oracle for
what `RobotFileParser.parse` derives from the fetched lines.  Source
behaviour: a cached domain is answered from the cache; otherwise a fresh
parser is created, the robots.txt is fetched; on a raised exception the
method logs a warning and returns `True` without caching; otherwise the
content is parsed only when the status is 200, the (possibly unparsed)
parser is cached, and its `can_fetch` verdict is returned. -/
def robots_can_fetch (parseRules : List String → String → String → Bool)
    (st : RobotsState) (url agent : String) (fetch : RobotsFetchResult) :
    Bool × RobotsState :=
  let domain := urlDomain url
  match st domain with
  | some p => (p.canFetch agent url, st)
  | none =>
    match fetch with
    | RobotsFetchResult.exn => (true, st)
    | RobotsFetchResult.ok status content =>
      let p : RobotFileParser :=
        if status = 200 then ⟨true, parseRules content⟩ else ⟨false, fun _ _ => true⟩
      (p.canFetch agent url,
        fun d => if d = domain then some p else st d)

/-! ## HotelScraper and crawl_hotel -/

/-- `HotelWebsiteConfig`: per-site selector configuration (contents are
only threaded through; the extraction details live behind the render
oracle). -/
structure HotelWebsiteConfig where
  name : String
  base_url : String
  selectors : List (String × String)

/-- The extracted `Hotel` record, reduced to the fields the crawl-control
code itself uses (the file name is built from `name` and
`source_website`). -/
structure Hotel where
  name : String
  url : String
  source_website : String
deriving DecidableEq

/-- Renderer failures the selenium calls inside `_extract_hotel_data` can
raise; the method's `except Exception` catches every one of them alike. -/
inductive RenderErr where
  | timeout
  | staleElement
  | navigation
  | other
deriving DecidableEq

/-- Exceptions that can propagate out of `crawl_hotel`: `IndexError` from
`random.choice` on an empty agent list (raised before the try block) and
`KeyError` from the website-config lookup. -/
inductive PyExn where
  | indexError
  | keyError
deriving DecidableEq

/-- Observable actions of one `crawl_hotel` run, in program order. -/
inductive Event where
  | robotsChecked (url agent : String)
  | logInfoDisallowed (url : String)
  | driverCreated
  | rateWait (domain : String)
  | pageFetch (url : String)
  | saved (name : String)
  | logInfoSaved (url : String)
  | logErrorExtract (url : String)
  | logErrorCrawl (url : String)
  | driverQuit
deriving DecidableEq

/-- Mutable state of a `HotelScraper`. -/
structure ScraperState where
  seen_urls : List String
  rate : RateLimiter
  robots : RobotsState

/-- The scraper state `HotelScraper.__init__` builds: empty seen set, a
rate limiter over `config.rate_limit_delay`, an empty robots cache. -/
def initState (cfg : ScraperConfig) : ScraperState :=
  { seen_urls := []
    rate := ⟨cfg.rate_limit_delay.1, cfg.rate_limit_delay.2, fun _ => none⟩
    robots := fun _ => none }

/-- External-effect oracle for one `crawl_hotel` call. -/
structure Oracles where
  agentIdx : Nat
  parseRules : List String → String → String → Bool
  robotsFetch : RobotsFetchResult
  driverAgentIdx : Nat
  driverOk : Bool
  now : ℚ
  delaySample : ℚ
  render : Except RenderErr String
  saveOk : Bool

/-- Result of a `crawl_hotel` call: the updated scraper state, the events
it performed, and the exception it propagated, if any. -/
structure CrawlOutput where
  state : ScraperState
  events : List Event
  exn : Option PyExn

/-- `HotelScraper._extract_hotel_data`, embedded.  Everything runs inside
one `try`: the rate-limiter wait, `driver.get(url)` (the page fetch), the
explicit element wait and the selector extraction.  Any raised exception —
timeout, stale element, anything — is caught by the blanket
`except Exception`, logged, and turned into `None`; there is no retry and
no inspection of the failure kind. -/
def extract_hotel_data (wcfg : HotelWebsiteConfig) (rl : RateLimiter)
    (url : String) (orc : Oracles) : Option Hotel × RateLimiter × List Event :=
  let dom := urlNetloc url
  let w := rl.wait dom orc.now orc.delaySample
  match orc.render with
  | Except.ok name =>
      (some ⟨name, url, wcfg.name⟩, w.2, [Event.rateWait dom, Event.pageFetch url])
  | Except.error _ =>
      (none, w.2,
        [Event.rateWait dom, Event.pageFetch url, Event.logErrorExtract url])

/-- The `try/except/finally` tail of `crawl_hotel`.  `_get_driver` chooses
a user agent (`IndexError` on an empty list is caught by the `except`) and
creates the Chrome driver (`orc.driverOk` says whether that raises); once a
driver exists, extraction runs, a truthy result is saved (a save failure is
caught and logged), and the `finally` block quits the driver exactly when
one was created. -/
def crawl_try (cfg : ScraperConfig) (wcfg : HotelWebsiteConfig) (orc : Oracles)
    (st : ScraperState) (evs : List Event) (url : String) : CrawlOutput :=
  match randomChoice cfg.user_agents orc.driverAgentIdx with
  | none => ⟨st, evs ++ [Event.logErrorCrawl url], none⟩
  | some _ =>
    if orc.driverOk then
      let ex := extract_hotel_data wcfg st.rate url orc
      let st' : ScraperState := ⟨st.seen_urls, ex.2.1, st.robots⟩
      match ex.1 with
      | some hotel =>
          if orc.saveOk then
            ⟨st', evs ++ Event.driverCreated :: ex.2.2 ++
              [Event.saved hotel.name, Event.logInfoSaved url, Event.driverQuit], none⟩
          else
            ⟨st', evs ++ Event.driverCreated :: ex.2.2 ++
              [Event.logErrorCrawl url, Event.driverQuit], none⟩
      | none =>
          ⟨st', evs ++ Event.driverCreated :: ex.2.2 ++ [Event.driverQuit], none⟩
    else ⟨st, evs ++ [Event.logErrorCrawl url], none⟩

/-- `HotelScraper.crawl_hotel`, embedded.  In source order: return if the
raw url is already in `seen_urls`; add it to `seen_urls`; look up the
website config (a `KeyError` propagates); when `respect_robots_txt` is set,
choose a user agent (`IndexError` on an empty list propagates — this is
before the try block) and consult the robots checker, returning after an
info log when it denies; otherwise run the fetch/extract/save try block. -/
def crawl_hotel (cfg : ScraperConfig)
    (websites : String → Option HotelWebsiteConfig) (orc : Oracles)
    (st : ScraperState) (url website_name : String) : CrawlOutput :=
  if url ∈ st.seen_urls then ⟨st, [], none⟩
  else
    let st1 : ScraperState := ⟨url :: st.seen_urls, st.rate, st.robots⟩
    match websites website_name with
    | none => ⟨st1, [], some PyExn.keyError⟩
    | some wcfg =>
      if cfg.respect_robots_txt then
        match randomChoice cfg.user_agents orc.agentIdx with
        | none => ⟨st1, [], some PyExn.indexError⟩
        | some agent =>
          let res := robots_can_fetch orc.parseRules st1.robots url agent orc.robotsFetch
          let st2 : ScraperState := ⟨st1.seen_urls, st1.rate, res.2⟩
          if res.1 then
            crawl_try cfg wcfg orc st2 [Event.robotsChecked url agent] url
          else
            ⟨st2, [Event.robotsChecked url agent, Event.logInfoDisallowed url], none⟩
      else
        crawl_try cfg wcfg orc st1 [] url

/-! ## The bounded-concurrency scheduler (`crawl_hotels`)

`crawl_hotels` wraps every `crawl_hotel` call in
`async with asyncio.Semaphore(concurrent_requests)`.  A semaphore of
capacity `N` admits a waiting task exactly when fewer than `N` tasks
currently hold it, so the scheduler is the transition system below on the
counts of waiting / in-flight / finished `bounded_crawl` tasks. -/

/-- Counts of `bounded_crawl` tasks that have not yet acquired the
semaphore, are inside `crawl_hotel`, and have finished. -/
structure SchedState where
  pending : Nat
  running : Nat
  finished : Nat
deriving DecidableEq

/-- One scheduler step: a pending task acquires the semaphore (possible
only while fewer than `N` tasks hold it) or a running task releases it. -/
inductive SchedStep (N : Nat) : SchedState → SchedState → Prop
  | start (s : SchedState) (hN : s.running < N) (hp : 0 < s.pending) :
      SchedStep N s ⟨s.pending - 1, s.running + 1, s.finished⟩
  | finish (s : SchedState) (hr : 0 < s.running) :
      SchedStep N s ⟨s.pending, s.running - 1, s.finished + 1⟩

/-- States reachable by `crawl_hotels` over `k` urls with semaphore
capacity `N`: initially every task is pending. -/
def SchedReachable (N k : Nat) (s : SchedState) : Prop :=
  Relation.ReflTransGen (SchedStep N) ⟨k, 0, 0⟩ s

/-! ## Derived observations and concrete fixtures -/

/-- Whether an event is a page fetch (`driver.get`). -/
def isPageFetch : Event → Bool
  | Event.pageFetch _ => true
  | _ => false

/-- Whether an event is a successful save of extracted data. -/
def isSavedEvent : Event → Bool
  | Event.saved _ => true
  | _ => false

/-- Number of page fetches in an event log. -/
def countFetch (evs : List Event) : Nat := evs.countP isPageFetch

/-- The seed address of the spec's example scenario. -/
def seedUrl : String := "https://site.example/hotel/ke/alpha.html?aid=123&sid=456"

/-- The discovered-link address of the spec's example scenario: same page,
different scheme/host case and locale suffix, no tracking parameters. -/
def linkUrl : String := "https://SITE.example/hotel/ke/alpha.en-gb.html"

/-- A concrete well-formed configuration with robots compliance off. -/
def cfgFix : ScraperConfig :=
  { max_retries := 3, retry_delay := 1, concurrent_requests := 5,
    request_timeout := 30, max_pages_per_hotel := 100,
    user_agents := ["UA-1"], output_directory := "hotel_data",
    respect_robots_txt := false, rate_limit_delay := (2, 5) }

/-- The same configuration with robots compliance on. -/
def cfgRobots : ScraperConfig := { cfgFix with respect_robots_txt := true }

/-- A concrete website-config table holding one site. -/
def websitesFix : String → Option HotelWebsiteConfig := fun n =>
  if n = "booking" then some ⟨"booking", "https://www.booking.com", []⟩ else none

/-- A benign oracle: driver creation, rendering and saving all succeed. -/
def orcOk : Oracles :=
  { agentIdx := 0, parseRules := fun _ _ _ => true,
    robotsFetch := RobotsFetchResult.exn, driverAgentIdx := 0,
    driverOk := true, now := 10, delaySample := 3,
    render := Except.ok "Alpha Hotel", saveOk := true }

/-- The benign oracle with the render call raising a timeout. -/
def orcTimeout : Oracles := { orcOk with render := Except.error RenderErr.timeout }

/-- The scraper state at crawl start under `cfgFix`. -/
def st0 : ScraperState := initState cfgFix

/-- A robots parser whose parsed rules deny everything. -/
def pDeny : RobotFileParser := ⟨true, fun _ _ => false⟩

/-- A scraper state whose robots cache already denies `seedUrl`'s domain. -/
def stDeny : ScraperState :=
  { seen_urls := []
    rate := ⟨2, 5, fun _ => none⟩
    robots := fun d => if d = urlDomain seedUrl then some pDeny else none }

/-- A rate limiter (min 2, max 5) that dispatched a request to
`site.example` at time 0. -/
def rlFix : RateLimiter :=
  ⟨2, 5, fun d => if d = "site.example" then some 0 else none⟩

/-- An empty robots cache. -/
def emptyRobots : RobotsState := fun _ => none

/-- A configuration with robots compliance on and an empty user-agent
list (pydantic accepts it: an empty list is a well-typed `List[str]`). -/
def cfgNoAgents : ScraperConfig := { cfgRobots with user_agents := [] }

/-! ## Helper lemmas -/

theorem randomChoice_nil (i : Nat) : randomChoice [] i = none := rfl

theorem randomChoice_eq_none_iff (l : List String) (i : Nat) :
    randomChoice l i = none ↔ l = [] := by
  unfold randomChoice
  split
  · simp_all [List.length_eq_zero]
  · rename_i h
    rw [List.length_eq_zero] at h
    simp [h]

theorem crawl_hotel_of_seen (cfg : ScraperConfig)
    (websites : String → Option HotelWebsiteConfig) (orc : Oracles)
    (st : ScraperState) (url website_name : String) (h : url ∈ st.seen_urls) :
    crawl_hotel cfg websites orc st url website_name = ⟨st, [], none⟩ := by
  unfold crawl_hotel
  rw [if_pos h]

theorem crawl_try_state_seen (cfg : ScraperConfig) (wcfg : HotelWebsiteConfig)
    (orc : Oracles) (st : ScraperState) (evs : List Event) (url : String) :
    (crawl_try cfg wcfg orc st evs url).state.seen_urls = st.seen_urls := by
  unfold crawl_try
  cases h1 : randomChoice cfg.user_agents orc.driverAgentIdx <;>
    cases h2 : orc.driverOk <;>
      cases h3 : orc.render <;>
        cases h4 : orc.saveOk <;>
          simp_all [extract_hotel_data]

theorem crawl_try_state_robots (cfg : ScraperConfig) (wcfg : HotelWebsiteConfig)
    (orc : Oracles) (st : ScraperState) (evs : List Event) (url : String) :
    (crawl_try cfg wcfg orc st evs url).state.robots = st.robots := by
  unfold crawl_try
  cases h1 : randomChoice cfg.user_agents orc.driverAgentIdx <;>
    cases h2 : orc.driverOk <;>
      cases h3 : orc.render <;>
        cases h4 : orc.saveOk <;>
          simp_all [extract_hotel_data]

theorem crawl_try_exn (cfg : ScraperConfig) (wcfg : HotelWebsiteConfig)
    (orc : Oracles) (st : ScraperState) (evs : List Event) (url : String) :
    (crawl_try cfg wcfg orc st evs url).exn = none := by
  unfold crawl_try
  cases h1 : randomChoice cfg.user_agents orc.driverAgentIdx <;>
    cases h2 : orc.driverOk <;>
      cases h3 : orc.render <;>
        cases h4 : orc.saveOk <;>
          simp_all [extract_hotel_data]

theorem crawl_hotel_state_seen (cfg : ScraperConfig)
    (websites : String → Option HotelWebsiteConfig) (orc : Oracles)
    (st : ScraperState) (url website_name : String) :
    (crawl_hotel cfg websites orc st url website_name).state.seen_urls
      = if url ∈ st.seen_urls then st.seen_urls else url :: st.seen_urls := by
  by_cases hseen : url ∈ st.seen_urls
  · simp [crawl_hotel, hseen]
  · cases hw : websites website_name <;>
      cases hresp : cfg.respect_robots_txt <;>
        simp_all [crawl_hotel, crawl_try_state_seen]
    cases hag : randomChoice cfg.user_agents orc.agentIdx <;>
      simp [hag]
    split <;> simp [crawl_try_state_seen]

theorem crawl_try_no_new_robots (cfg : ScraperConfig) (wcfg : HotelWebsiteConfig)
    (orc : Oracles) (st : ScraperState) (evs : List Event) (url u a : String)
    (h : Event.robotsChecked u a ∉ evs) :
    Event.robotsChecked u a ∉ (crawl_try cfg wcfg orc st evs url).events := by
  unfold crawl_try
  cases h1 : randomChoice cfg.user_agents orc.driverAgentIdx <;>
    cases h2 : orc.driverOk <;>
      cases h3 : orc.render <;>
        cases h4 : orc.saveOk <;>
          simp_all [extract_hotel_data]

theorem crawl_try_fetch_mem (cfg : ScraperConfig) (wcfg : HotelWebsiteConfig)
    (orc : Oracles) (st : ScraperState) (evs : List Event) (url : String)
    (hua : cfg.user_agents ≠ []) (hd : orc.driverOk = true) :
    Event.pageFetch url ∈ (crawl_try cfg wcfg orc st evs url).events := by
  unfold crawl_try
  cases h1 : randomChoice cfg.user_agents orc.driverAgentIdx <;>
    cases h3 : orc.render <;>
      cases h4 : orc.saveOk <;>
        simp_all [extract_hotel_data, randomChoice_eq_none_iff]

theorem crawl_try_quit (cfg : ScraperConfig) (wcfg : HotelWebsiteConfig)
    (orc : Oracles) (st : ScraperState) (evs : List Event) (url : String)
    (h : Event.driverCreated ∉ evs) :
    Event.driverCreated ∈ (crawl_try cfg wcfg orc st evs url).events →
      Event.driverQuit ∈ (crawl_try cfg wcfg orc st evs url).events := by
  unfold crawl_try
  cases h1 : randomChoice cfg.user_agents orc.driverAgentIdx <;>
    cases h2 : orc.driverOk <;>
      cases h3 : orc.render <;>
        cases h4 : orc.saveOk <;>
          simp_all [extract_hotel_data]

theorem crawl_try_log_extract (cfg : ScraperConfig) (wcfg : HotelWebsiteConfig)
    (orc : Oracles) (st : ScraperState) (evs : List Event) (url : String)
    (e : RenderErr) (h : Event.driverCreated ∉ evs)
    (hr : orc.render = Except.error e) :
    Event.driverCreated ∈ (crawl_try cfg wcfg orc st evs url).events →
      Event.logErrorExtract url ∈ (crawl_try cfg wcfg orc st evs url).events := by
  unfold crawl_try
  cases h1 : randomChoice cfg.user_agents orc.driverAgentIdx <;>
    cases h2 : orc.driverOk <;>
      cases h4 : orc.saveOk <;>
        simp_all [extract_hotel_data]

theorem crawl_try_countFetch (cfg : ScraperConfig) (wcfg : HotelWebsiteConfig)
    (orc : Oracles) (st : ScraperState) (evs : List Event) (url : String)
    (hua : cfg.user_agents ≠ []) (hd : orc.driverOk = true) :
    countFetch (crawl_try cfg wcfg orc st evs url).events = countFetch evs + 1 := by
  unfold crawl_try
  cases h1 : randomChoice cfg.user_agents orc.driverAgentIdx <;>
    cases h3 : orc.render <;>
      cases h4 : orc.saveOk <;>
        simp_all [extract_hotel_data, randomChoice_eq_none_iff, countFetch,
          List.countP_append, List.countP_cons, isPageFetch]

/-! ## Claims -/

/-- C4: the scheduler's semaphore bounds concurrency — in every state
reachable by `crawl_hotels`'s step relation, at most `N` tasks are
executing `crawl_hotel`, where `N` is the configured
`concurrent_requests`. -/
theorem sched_concurrency_bound (N k : Nat) (s : SchedState)
    (h : SchedReachable N k s) : s.running ≤ N := by
  induction h with
  | refl => exact Nat.zero_le N
  | tail _ step ih =>
    cases step with
    | start hN hp => exact hN
    | finish hr => exact Nat.le_trans (Nat.sub_le _ _) ih

/-- C4 witness: with capacity 2 and 3 tasks, the state after one task
starts is reachable and satisfies the bound. -/
theorem sched_concurrency_bound_witness :
    SchedReachable 2 3 ⟨2, 1, 0⟩ ∧ (SchedState.mk 2 1 0).running ≤ 2 :=
  ⟨Relation.ReflTransGen.single (SchedStep.start ⟨3, 0, 0⟩ (by decide) (by decide)),
   sched_concurrency_bound 2 3 ⟨2, 1, 0⟩
     (Relation.ReflTransGen.single (SchedStep.start ⟨3, 0, 0⟩ (by decide) (by decide)))⟩

/-- C9: `crawl_hotel` records the raw url in `seen_urls` unconditionally
(before the robots check or any fetch), the seen set only grows, and any
later call with the same url string — under any oracle, so also after a
failed or disallowed first attempt — returns immediately with no events,
no exception, and the state unchanged. -/
theorem crawl_hotel_seen_idempotent (cfg : ScraperConfig)
    (websites : String → Option HotelWebsiteConfig) (orc orc' : Oracles)
    (st : ScraperState) (url website_name website_name' : String) :
    url ∈ (crawl_hotel cfg websites orc st url website_name).state.seen_urls ∧
    (∀ v, v ∈ st.seen_urls →
      v ∈ (crawl_hotel cfg websites orc st url website_name).state.seen_urls) ∧
    crawl_hotel cfg websites orc'
        (crawl_hotel cfg websites orc st url website_name).state url website_name'
      = ⟨(crawl_hotel cfg websites orc st url website_name).state, [], none⟩ := by
  have hmem : url ∈ (crawl_hotel cfg websites orc st url website_name).state.seen_urls := by
    rw [crawl_hotel_state_seen]
    split
    · assumption
    · exact List.mem_cons_self _ _
  refine ⟨hmem, ?_, crawl_hotel_of_seen _ _ _ _ _ _ hmem⟩
  intro v hv
  rw [crawl_hotel_state_seen]
  split
  · exact hv
  · exact List.mem_cons_of_mem _ hv

/-- C9 witness: the theorem applied at the fixture configuration and the
spec's seed address. -/
theorem crawl_hotel_seen_idempotent_witness :
    seedUrl ∈ (crawl_hotel cfgFix websitesFix orcOk st0 seedUrl "booking").state.seen_urls :=
  (crawl_hotel_seen_idempotent cfgFix websitesFix orcOk orcOk st0 seedUrl
    "booking" "booking").1

/-- C6: when robots compliance is enabled and the cached policy for the
address's domain denies the chosen user agent, `crawl_hotel` never creates
a driver and never dispatches a page fetch, raises nothing, and the
address is never retried: it is in `seen_urls` and every later call for it
is a no-op under any oracle. -/
theorem robots_disallow_never_dispatched (cfg : ScraperConfig)
    (websites : String → Option HotelWebsiteConfig) (wcfg : HotelWebsiteConfig)
    (orc : Oracles) (st : ScraperState) (url website_name agent : String)
    (p : RobotFileParser)
    (hseen : url ∉ st.seen_urls)
    (hresp : cfg.respect_robots_txt = true)
    (hw : websites website_name = some wcfg)
    (hagent : randomChoice cfg.user_agents orc.agentIdx = some agent)
    (hcache : st.robots (urlDomain url) = some p)
    (hdeny : p.canFetch agent url = false) :
    Event.driverCreated ∉ (crawl_hotel cfg websites orc st url website_name).events ∧
    (∀ u, Event.pageFetch u ∉ (crawl_hotel cfg websites orc st url website_name).events) ∧
    (crawl_hotel cfg websites orc st url website_name).exn = none ∧
    (∀ orc'' wn'', crawl_hotel cfg websites orc''
        (crawl_hotel cfg websites orc st url website_name).state url wn''
      = ⟨(crawl_hotel cfg websites orc st url website_name).state, [], none⟩) := by
  have hout : crawl_hotel cfg websites orc st url website_name
      = ⟨⟨url :: st.seen_urls, st.rate, st.robots⟩,
         [Event.robotsChecked url agent, Event.logInfoDisallowed url], none⟩ := by
    simp only [crawl_hotel, robots_can_fetch, hw, hresp, hagent, hcache, hdeny,
      if_neg hseen]
    simp
  rw [hout]
  refine ⟨by simp, fun u => by simp, rfl, fun orc'' wn'' => ?_⟩
  exact crawl_hotel_of_seen _ _ _ _ _ _ (List.mem_cons_self _ _)

/-- C6 witness: the theorem applied at a concrete state whose robots cache
denies the seed address's domain. -/
theorem robots_disallow_never_dispatched_witness :
    cfgRobots.respect_robots_txt = true ∧
    stDeny.robots (urlDomain seedUrl) = some pDeny ∧
    pDeny.canFetch "UA-1" seedUrl = false ∧
    Event.driverCreated ∉ (crawl_hotel cfgRobots websitesFix orcOk stDeny seedUrl "booking").events :=
  ⟨rfl, rfl, rfl,
   (robots_disallow_never_dispatched cfgRobots websitesFix
      ⟨"booking", "https://www.booking.com", []⟩ orcOk stDeny seedUrl "booking"
      "UA-1" pDeny (by decide) rfl rfl rfl rfl rfl).1⟩

/-- C7: with robots compliance disabled in the configuration,
`crawl_hotel` never invokes the robots checker — no robots-check event
occurs and the robots cache is left untouched — and every address proceeds
to the renderer (a page fetch is dispatched whenever the driver can be
created at all). -/
theorem robots_disabled_no_checker (cfg : ScraperConfig)
    (websites : String → Option HotelWebsiteConfig) (wcfg : HotelWebsiteConfig)
    (orc : Oracles) (st : ScraperState) (url website_name : String)
    (hresp : cfg.respect_robots_txt = false)
    (hseen : url ∉ st.seen_urls)
    (hw : websites website_name = some wcfg) :
    (∀ u a, Event.robotsChecked u a ∉ (crawl_hotel cfg websites orc st url website_name).events) ∧
    (crawl_hotel cfg websites orc st url website_name).state.robots = st.robots ∧
    (orc.driverOk = true → cfg.user_agents ≠ [] →
      Event.pageFetch url ∈ (crawl_hotel cfg websites orc st url website_name).events) := by
  have hout : crawl_hotel cfg websites orc st url website_name
      = crawl_try cfg wcfg orc ⟨url :: st.seen_urls, st.rate, st.robots⟩ [] url := by
    simp only [crawl_hotel, hw, hresp, if_neg hseen]
    simp
  rw [hout]
  refine ⟨fun u a => crawl_try_no_new_robots _ _ _ _ _ _ _ _ (by simp),
    crawl_try_state_robots _ _ _ _ _ _, fun hd hua => ?_⟩
  exact crawl_try_fetch_mem _ _ _ _ _ _ hua hd

/-- C7 witness: the theorem applied at the fixture configuration (robots
compliance off) and the seed address. -/
theorem robots_disabled_no_checker_witness :
    cfgFix.respect_robots_txt = false ∧
    (∀ u a, Event.robotsChecked u a ∉ (crawl_hotel cfgFix websitesFix orcOk st0 seedUrl "booking").events) :=
  ⟨rfl,
   (robots_disabled_no_checker cfgFix websitesFix
      ⟨"booking", "https://www.booking.com", []⟩ orcOk st0 seedUrl "booking"
      rfl (by decide) rfl).1⟩

/-- C10: in every `crawl_hotel` execution that successfully creates a
WebDriver, the driver is quit before the call returns — including when
extraction or saving fails — no exception propagates out of the
fetch/extract/save phase, and a render failure is logged. -/
theorem driver_always_quit (cfg : ScraperConfig)
    (websites : String → Option HotelWebsiteConfig) (orc : Oracles)
    (st : ScraperState) (url website_name : String)
    (hdc : Event.driverCreated ∈ (crawl_hotel cfg websites orc st url website_name).events) :
    Event.driverQuit ∈ (crawl_hotel cfg websites orc st url website_name).events ∧
    (crawl_hotel cfg websites orc st url website_name).exn = none ∧
    (∀ e, orc.render = Except.error e →
      Event.logErrorExtract url ∈ (crawl_hotel cfg websites orc st url website_name).events) := by
  by_cases hseen : url ∈ st.seen_urls
  · rw [crawl_hotel_of_seen _ _ _ _ _ _ hseen] at hdc
    simp at hdc
  · cases hw : websites website_name with
    | none =>
      have hout : crawl_hotel cfg websites orc st url website_name
          = ⟨⟨url :: st.seen_urls, st.rate, st.robots⟩, [], some PyExn.keyError⟩ := by
        simp only [crawl_hotel, hw, if_neg hseen]
      rw [hout] at hdc
      simp at hdc
    | some wcfg =>
      cases hresp : cfg.respect_robots_txt with
      | false =>
        have hout : crawl_hotel cfg websites orc st url website_name
            = crawl_try cfg wcfg orc ⟨url :: st.seen_urls, st.rate, st.robots⟩ [] url := by
          simp only [crawl_hotel, hw, hresp, if_neg hseen]
          simp
        rw [hout] at hdc ⊢
        exact ⟨crawl_try_quit _ _ _ _ _ _ (by simp) hdc, crawl_try_exn _ _ _ _ _ _,
          fun e he => crawl_try_log_extract _ _ _ _ _ _ _ (by simp) he hdc⟩
      | true =>
        cases hag : randomChoice cfg.user_agents orc.agentIdx with
        | none =>
          have hout : crawl_hotel cfg websites orc st url website_name
              = ⟨⟨url :: st.seen_urls, st.rate, st.robots⟩, [], some PyExn.indexError⟩ := by
            simp only [crawl_hotel, hw, hresp, hag, if_neg hseen]
            simp
          rw [hout] at hdc
          simp at hdc
        | some agent =>
          cases hver : (robots_can_fetch orc.parseRules st.robots url agent orc.robotsFetch).1 with
          | false =>
            have hout : crawl_hotel cfg websites orc st url website_name
                = ⟨⟨url :: st.seen_urls, st.rate,
                     (robots_can_fetch orc.parseRules st.robots url agent orc.robotsFetch).2⟩,
                   [Event.robotsChecked url agent, Event.logInfoDisallowed url], none⟩ := by
              simp only [crawl_hotel, hw, hresp, hag, hver, if_neg hseen]
              simp
            rw [hout] at hdc
            simp at hdc
          | true =>
            have hout : crawl_hotel cfg websites orc st url website_name
                = crawl_try cfg wcfg orc
                    ⟨url :: st.seen_urls, st.rate,
                      (robots_can_fetch orc.parseRules st.robots url agent orc.robotsFetch).2⟩
                    [Event.robotsChecked url agent] url := by
              simp only [crawl_hotel, hw, hresp, hag, hver, if_neg hseen]
              simp
            rw [hout] at hdc ⊢
            exact ⟨crawl_try_quit _ _ _ _ _ _ (by simp) hdc, crawl_try_exn _ _ _ _ _ _,
              fun e he => crawl_try_log_extract _ _ _ _ _ _ _ (by simp) he hdc⟩

/-- C10 witness: a concrete execution whose render call fails with a
timeout still creates the driver; the theorem yields the quit event. -/
theorem driver_always_quit_witness :
    Event.driverCreated ∈ (crawl_hotel cfgFix websitesFix orcTimeout st0 seedUrl "booking").events ∧
    Event.driverQuit ∈ (crawl_hotel cfgFix websitesFix orcTimeout st0 seedUrl "booking").events :=
  ⟨by decide,
   (driver_always_quit cfgFix websitesFix orcTimeout st0 seedUrl "booking" (by decide)).1⟩

theorem crawl_hotel_fetch_once (cfg : ScraperConfig)
    (websites : String → Option HotelWebsiteConfig) (wcfg : HotelWebsiteConfig)
    (orc : Oracles) (st : ScraperState) (url website_name : String)
    (hresp : cfg.respect_robots_txt = false)
    (hw : websites website_name = some wcfg)
    (hseen : url ∉ st.seen_urls) (hua : cfg.user_agents ≠ [])
    (hd : orc.driverOk = true) :
    countFetch (crawl_hotel cfg websites orc st url website_name).events = 1 := by
  have hout : crawl_hotel cfg websites orc st url website_name
      = crawl_try cfg wcfg orc ⟨url :: st.seen_urls, st.rate, st.robots⟩ [] url := by
    simp only [crawl_hotel, hw, hresp, if_neg hseen]
    simp
  rw [hout, crawl_try_countFetch _ _ _ _ _ _ hua hd]
  simp [countFetch]

/-- C1 counterexample: the spec's two example addresses — identical up to
tracking query parameters, scheme/host case and locale suffix — are NOT
canonicalized to a common value: they are distinct raw strings, the dedup
check accepts both, and the page is fetched by each of the two calls
instead of exactly once. -/
theorem no_canonicalization_counterexample :
    seedUrl ≠ linkUrl ∧
    countFetch ((crawl_hotel cfgFix websitesFix orcOk st0 seedUrl "booking").events ++
        (crawl_hotel cfgFix websitesFix orcOk
          (crawl_hotel cfgFix websitesFix orcOk st0 seedUrl "booking").state
          linkUrl "booking").events) = 2 :=
  ⟨by decide, by decide⟩

/-- C1 amended: deduplication is by exact raw url string, with no
canonicalization: crawling two addresses in sequence fetches once when the
raw strings are equal and twice otherwise — so decorated variants of the
same page (tracking parameters, host case, locale suffix) are each
fetched. -/
theorem dedup_by_raw_string (cfg : ScraperConfig)
    (websites : String → Option HotelWebsiteConfig) (wcfg : HotelWebsiteConfig)
    (orc orc' : Oracles) (st : ScraperState) (u v website_name : String)
    (hresp : cfg.respect_robots_txt = false)
    (hw : websites website_name = some wcfg)
    (hu : u ∉ st.seen_urls) (hv : v ∉ st.seen_urls)
    (hua : cfg.user_agents ≠ [])
    (hd : orc.driverOk = true) (hd' : orc'.driverOk = true) :
    countFetch ((crawl_hotel cfg websites orc st u website_name).events ++
        (crawl_hotel cfg websites orc'
          (crawl_hotel cfg websites orc st u website_name).state v website_name).events)
      = if v = u then 1 else 2 := by
  have h1 := crawl_hotel_fetch_once cfg websites wcfg orc st u website_name
    hresp hw hu hua hd
  have hseen1 : (crawl_hotel cfg websites orc st u website_name).state.seen_urls
      = u :: st.seen_urls := by
    rw [crawl_hotel_state_seen, if_neg hu]
  by_cases hvu : v = u
  · have h2 : crawl_hotel cfg websites orc'
        (crawl_hotel cfg websites orc st u website_name).state v website_name
        = ⟨(crawl_hotel cfg websites orc st u website_name).state, [], none⟩ :=
      crawl_hotel_of_seen _ _ _ _ _ _
        (by rw [hseen1, hvu]; exact List.mem_cons_self _ _)
    rw [h2, if_pos hvu]
    simp only [countFetch, List.countP_append] at h1 ⊢
    simp [h1]
  · have hv2 : v ∉ (crawl_hotel cfg websites orc st u website_name).state.seen_urls := by
      rw [hseen1]
      simp [hvu, hv]
    have h2 := crawl_hotel_fetch_once cfg websites wcfg orc'
      (crawl_hotel cfg websites orc st u website_name).state v website_name
      hresp hw hv2 hua hd'
    rw [if_neg hvu]
    simp only [countFetch, List.countP_append] at h1 h2 ⊢
    omega

/-- C1 witness: the amended theorem applied at the spec's two example
addresses — they are distinct strings, so two fetches. -/
theorem dedup_by_raw_string_witness :
    cfgFix.respect_robots_txt = false ∧ cfgFix.user_agents ≠ [] ∧
    countFetch ((crawl_hotel cfgFix websitesFix orcOk st0 seedUrl "booking").events ++
        (crawl_hotel cfgFix websitesFix orcOk
          (crawl_hotel cfgFix websitesFix orcOk st0 seedUrl "booking").state
          linkUrl "booking").events)
      = if linkUrl = seedUrl then 1 else 2 :=
  ⟨rfl, by decide,
   dedup_by_raw_string cfgFix websitesFix ⟨"booking", "https://www.booking.com", []⟩
     orcOk orcOk st0 seedUrl linkUrl "booking" rfl rfl (by decide) (by decide)
     (by decide) rfl rfl⟩

/-- C2: evaluation at the failing input.  `max_retries` is 3 in the
configuration but is never consulted: a crawl whose render raises a
timeout performs exactly one page fetch (zero retries, no backoff), saves
nothing, raises nothing, and the address is never reattempted — a later
call for it is a no-op even though the fetch failed transiently. -/
theorem transient_failure_not_retried :
    cfgFix.max_retries = 3 ∧
    countFetch (crawl_hotel cfgFix websitesFix orcTimeout st0 seedUrl "booking").events = 1 ∧
    (crawl_hotel cfgFix websitesFix orcTimeout st0 seedUrl "booking").events.countP
      isSavedEvent = 0 ∧
    (crawl_hotel cfgFix websitesFix orcTimeout st0 seedUrl "booking").exn = none ∧
    crawl_hotel cfgFix websitesFix orcOk
        (crawl_hotel cfgFix websitesFix orcTimeout st0 seedUrl "booking").state
        seedUrl "booking"
      = ⟨(crawl_hotel cfgFix websitesFix orcTimeout st0 seedUrl "booking").state,
         [], none⟩ :=
  ⟨rfl, by decide, by decide, by decide,
   crawl_hotel_of_seen _ _ _ _ _ _ (by decide)⟩

/-- C3: evaluation at the failing input.  A robots.txt request answered
with HTTP 404 is NOT treated as permitted: the response is not parsed, the
fresh parser is cached, and `urllib`'s `can_fetch` returns `False` for a
parser that was never fed — so the whole domain is denied, permanently
(later queries hit the cached unparsed parser, even a parse oracle that
would allow everything never runs).  Only a raised exception (network
error, timeout) is answered with permitted. -/
theorem robots_non_success_fails_closed :
    (robots_can_fetch (fun _ _ _ => true) emptyRobots
        "https://site.example/hotel/ke/alpha.html" "UA-1"
        (RobotsFetchResult.ok 404 [])).1 = false ∧
    (robots_can_fetch (fun _ _ _ => true)
        (robots_can_fetch (fun _ _ _ => true) emptyRobots
          "https://site.example/hotel/ke/alpha.html" "UA-1"
          (RobotsFetchResult.ok 404 [])).2
        "https://site.example/hotel/ke/beta.html" "UA-1"
        (RobotsFetchResult.ok 200 ["User-agent: *", "Allow: /"])).1 = false ∧
    (robots_can_fetch (fun _ _ _ => true) emptyRobots
        "https://site.example/hotel/ke/alpha.html" "UA-1"
        RobotsFetchResult.exn).1 = true :=
  ⟨rfl, rfl, rfl⟩

/-- C5 amended: when wait calls for a domain are serialized — each call
starting after the previous completion wrote the timestamp — any sampled
delay of at least `min_delay` puts the new dispatch at least `min_delay`
after the recorded one, and the timestamp is written at the moment the
wait completes (the new dispatch moment), not when the request finishes.
Overlapping concurrent waits are excluded: both read the old timestamp
before either writes (see the counterexample). -/
theorem rate_wait_spacing_serialized (rl : RateLimiter) (domain : String)
    (now delay last : ℚ)
    (hmin : rl.min_delay ≤ delay)
    (hlast : rl.last_request_time domain = some last) :
    rl.min_delay ≤ (rl.wait domain now delay).1 - last ∧
    (rl.wait domain now delay).2.last_request_time domain
      = some (rl.wait domain now delay).1 := by
  by_cases h : now - last < delay
  · constructor
    · simp only [RateLimiter.wait, hlast, if_pos h]
      have heq : now + (delay - (now - last)) - last = delay := by ring
      rw [heq]
      exact hmin
    · simp [RateLimiter.wait, hlast, if_pos h]
  · constructor
    · simp only [RateLimiter.wait, hlast, if_neg h]
      push_neg at h
      exact le_trans hmin h
    · simp [RateLimiter.wait, hlast, if_neg h]

/-- C5 witness: the amended theorem at the fixture limiter (min 2, last
dispatch at 0), a call at time 1 with sampled delay 3. -/
theorem rate_wait_spacing_serialized_witness :
    rlFix.min_delay ≤ 3 ∧ rlFix.last_request_time "site.example" = some 0 ∧
    rlFix.min_delay ≤ (rlFix.wait "site.example" 1 3).1 - 0 :=
  ⟨by decide, rfl,
   (rate_wait_spacing_serialized rlFix "site.example" 1 3 0
      (by decide) rfl).1⟩

/-- C5 counterexample: two overlapping wait calls for the same domain.  An
asyncio coroutine runs atomically up to its `await asyncio.sleep`; a
second `wait` call starting before the first one's sleep finishes reads
the same last-request timestamp, because each call writes only at its own
completion.  Both calls below read the dispatch recorded at time 0; with
sampled delays 5 and 4 — both inside the configured interval from 2 to
5 — they complete, and dispatch, at times 5 and 4: consecutive dispatches
only 1 apart, below min_delay = 2. -/
theorem rate_wait_overlap_counterexample :
    rlFix.min_delay ≤ 5 ∧ (5:ℚ) ≤ rlFix.max_delay ∧
    rlFix.min_delay ≤ 4 ∧ (4:ℚ) ≤ rlFix.max_delay ∧
    (2:ℚ) < (rlFix.wait "site.example" 1 5).1 ∧
    (rlFix.wait "site.example" 2 4).1 < (rlFix.wait "site.example" 1 5).1 ∧
    (rlFix.wait "site.example" 1 5).1 - (rlFix.wait "site.example" 2 4).1
      < rlFix.min_delay := by
  norm_num [RateLimiter.wait, rlFix]

/-- C8 counterexample: construction does not fail on invalid values —
validation checks only field presence and types, so a configuration with
zero (or negative) concurrency, an empty user-agent list and min above max
in the delay bounds is accepted at startup. -/
theorem invalid_config_accepted :
    ScraperConfig.construct (some 3) (some 1) (some 0) (some 30) (some 100)
        (some []) (some "hotel_data") (some true) (some (5, 2))
      = Except.ok ⟨3, 1, 0, 30, 100, [], "hotel_data", true, (5, 2)⟩ ∧
    ScraperConfig.construct none none (some (-2)) none none
        (some []) (some "hotel_data") none none
      = Except.ok ⟨3, 1, -2, 30, 100, [], "hotel_data", true, (2, 5)⟩ :=
  ⟨rfl, rfl⟩

/-- C8 amended: construction only requires the mandatory fields to be
present and well-typed; every value — non-positive concurrency, empty
agent list, min above max delay bounds — is accepted, and the invalid
empty agent list IS observed by per-address code: with robots compliance
on, `crawl_hotel` propagates the `IndexError` raised by the user-agent
choice. -/
theorem config_no_value_validation (mr : Option Int) (rd : Option ℚ)
    (cr rt mp : Option Int) (ua : List String) (od : String)
    (rr : Option Bool) (rld : Option (ℚ × ℚ))
    (cfg : ScraperConfig) (websites : String → Option HotelWebsiteConfig)
    (wcfg : HotelWebsiteConfig) (orc : Oracles) (st : ScraperState)
    (url website_name : String)
    (hua : cfg.user_agents = []) (hrr : cfg.respect_robots_txt = true)
    (hseen : url ∉ st.seen_urls) (hw : websites website_name = some wcfg) :
    (∃ c, ScraperConfig.construct mr rd cr rt mp (some ua) (some od) rr rld
        = Except.ok c) ∧
    (crawl_hotel cfg websites orc st url website_name).exn = some PyExn.indexError := by
  refine ⟨⟨_, rfl⟩, ?_⟩
  have hag : randomChoice cfg.user_agents orc.agentIdx = none := by
    rw [hua]
    exact randomChoice_nil _
  simp only [crawl_hotel, hw, hrr, hag, if_neg hseen]
  simp

/-- C8 witness: the amended theorem at a concrete configuration with an
empty agent list and robots compliance on. -/
theorem config_no_value_validation_witness :
    cfgNoAgents.user_agents = [] ∧ cfgNoAgents.respect_robots_txt = true ∧
    (crawl_hotel cfgNoAgents websitesFix orcOk st0 seedUrl "booking").exn
      = some PyExn.indexError :=
  ⟨rfl, rfl,
   (config_no_value_validation (some 3) (some 1) (some 0) (some 30) (some 100)
      [] "hotel_data" (some true) (some (5, 2)) cfgNoAgents websitesFix
      ⟨"booking", "https://www.booking.com", []⟩ orcOk st0 seedUrl "booking"
      rfl rfl (by decide) rfl).2⟩

end Spider
